import Mathlib

/-!
Shallow embedding of the bonuspin library (MCP23S17 SPI GPIO-expander driver
and HC138 demultiplexer driver).

Hardware effects are made observable:
the Arduino pin and SPI calls made by an operation are recorded as a list of
events, and each whole SPI register transaction is additionally recorded as an
abstract bus operation.  The expander chip on the other side of the bus is
modelled as a byte-addressable backing store (a test double), so that a
register read returns whatever was last written to that register address.
-/

namespace Bonuspin

/-- One observable hardware action: pinMode(p, OUTPUT), digitalWrite(p, level)
with true = HIGH and false = LOW, SPI.transfer(out), or delayMicroseconds(n). -/
inductive Event where
  | pinModeOut : Nat → Event
  | pinWrite : Nat → Bool → Event
  | spiTransfer : Nat → Event
  | delayMicroseconds : Nat → Event
  deriving DecidableEq

/-- One whole SPI register transaction of the MCP23S17 driver: a read of a
register address, or a write of a value to a register address. -/
inductive BusOp where
  | readReg : Nat → BusOp
  | writeReg : Nat → Nat → BusOp
  deriving DecidableEq

/-- The compile-time template parameters of the MCP23S17 class:
chipEnable pin, 3-bit bus address, and reset pin (negative = absent,
matching the template default reset = -1). -/
structure Config where
  chipEnable : Nat
  address : Nat
  resetPin : Int
  deriving DecidableEq

/-- HasResetPin = (ResetPin >= 0). -/
def Config.hasResetPin (c : Config) : Bool := decide (0 ≤ c.resetPin)

/-- The three mirrored mode flags of the MCP23S17 class
(_registersAreSequential, _polarityIsActiveLow, _hardwareAddressPinsEnabled),
with their member initializers true / true / false. -/
structure Flags where
  _registersAreSequential : Bool
  _polarityIsActiveLow : Bool
  _hardwareAddressPinsEnabled : Bool
  deriving DecidableEq

def Flags.registersAreSequential (f : Flags) : Bool := f._registersAreSequential

def Flags.registersAreInSeparateBanks (f : Flags) : Bool := !f._registersAreSequential

def Flags.interruptPinsAreActiveLow (f : Flags) : Bool := f._polarityIsActiveLow

def Flags.interruptPinsAreActiveHigh (f : Flags) : Bool := !f._polarityIsActiveLow

def Flags.hardwareAddressEnabled (f : Flags) : Bool := f._hardwareAddressPinsEnabled

def Flags.hardwareAddressDisabled (f : Flags) : Bool := !f._hardwareAddressPinsEnabled

/-- Whole-system state of one driver instance: the mirrored flags, the
expander register file (backing-store test double for the SPI replies),
and the recorded hardware-event and bus-operation traces. -/
structure Sys where
  flags : Flags
  dev : Nat → Nat
  trace : List Event
  ops : List BusOp

/-- getSPIAddress(): BusAddress if _hardwareAddressPinsEnabled else 0b000. -/
def getSPIAddress (cfg : Config) (f : Flags) : Nat :=
  if f._hardwareAddressPinsEnabled then cfg.address else 0

/-- generateOpcode(ReadOperation): 0b01000000 | (getSPIAddress() << 1) | 1. -/
def generateOpcodeRead (cfg : Config) (f : Flags) : Nat :=
  0b01000000 ||| (getSPIAddress cfg f <<< 1) ||| 1

/-- generateOpcode(WriteOperation): 0b01000000 | (getSPIAddress() << 1). -/
def generateOpcodeWrite (cfg : Config) (f : Flags) : Nat :=
  0b01000000 ||| (getSPIAddress cfg f <<< 1)

/-- read(registerAddress): scoped CSEnabler (chip-enable held LOW), transfer
the read opcode, transfer the register address, transfer dummy 0x00 and return
its reply (modelled as the byte of the backing store at that register address). -/
def read (cfg : Config) (s : Sys) (registerAddress : Nat) : Nat × Sys :=
  (s.dev registerAddress,
    { s with
      trace := s.trace ++
        [Event.pinWrite cfg.chipEnable false,
         Event.spiTransfer (generateOpcodeRead cfg s.flags),
         Event.spiTransfer registerAddress,
         Event.spiTransfer 0x00,
         Event.pinWrite cfg.chipEnable true],
      ops := s.ops ++ [BusOp.readReg registerAddress] })

/-- write(registerAddress, value): scoped CSEnabler, transfer the write
opcode, transfer the register address, transfer the value; the backing store
is updated at that register address. -/
def write (cfg : Config) (s : Sys) (registerAddress value : Nat) : Sys :=
  { s with
    dev := fun a => if a = registerAddress then value else s.dev a,
    trace := s.trace ++
      [Event.pinWrite cfg.chipEnable false,
       Event.spiTransfer (generateOpcodeWrite cfg s.flags),
       Event.spiTransfer registerAddress,
       Event.spiTransfer value,
       Event.pinWrite cfg.chipEnable true],
    ops := s.ops ++ [BusOp.writeReg registerAddress value] }

/-- write16(a, b, value): write(a, value & 0xFF); write(b, (value & 0xFF00) >> 8). -/
def write16 (cfg : Config) (s : Sys) (registerAddressA registerAddressB value : Nat) : Sys :=
  let s1 := write cfg s registerAddressA (value &&& 0xFF)
  write cfg s1 registerAddressB ((value &&& 0xFF00) >>> 8)

/-- read16(a, b): read(a) | (read(b) << 8). -/
def read16 (cfg : Config) (s : Sys) (registerAddressA registerAddressB : Nat) : Nat × Sys :=
  let lo := read cfg s registerAddressA
  let hi := read cfg lo.2 registerAddressB
  (lo.1 ||| (hi.1 <<< 8), hi.2)

/-- chooseAddress<seq, banked>(): registersAreSequential() ? seq : banked. -/
def chooseAddress (seq banked : Nat) (f : Flags) : Nat :=
  if f.registersAreSequential then seq else banked

def getIODIRAAddress (_ : Flags) : Nat := 0x00

def getIODIRBAddress (f : Flags) : Nat := chooseAddress 0x01 0x10 f

def getIOPOLAAddress (f : Flags) : Nat := chooseAddress 0x02 0x01 f

def getIOPOLBAddress (f : Flags) : Nat := chooseAddress 0x03 0x11 f

def getGPINTENAAddress (f : Flags) : Nat := chooseAddress 0x04 0x02 f

def getGPINTENBAddress (f : Flags) : Nat := chooseAddress 0x05 0x12 f

def getDEFVALAAddress (f : Flags) : Nat := chooseAddress 0x06 0x03 f

def getDEFVALBAddress (f : Flags) : Nat := chooseAddress 0x07 0x13 f

def getIntConAAddress (f : Flags) : Nat := chooseAddress 0x08 0x04 f

def getIntConBAddress (f : Flags) : Nat := chooseAddress 0x09 0x14 f

def getIOConAddress (f : Flags) : Nat := chooseAddress 0x0A 0x05 f

def getGPPUAAddress (f : Flags) : Nat := chooseAddress 0x0C 0x06 f

def getGPPUBAddress (f : Flags) : Nat := chooseAddress 0x0D 0x16 f

def getINTFAAddress (f : Flags) : Nat := chooseAddress 0x0E 0x07 f

def getINTFBAddress (f : Flags) : Nat := chooseAddress 0x0F 0x17 f

def getINTCAPAAddress (f : Flags) : Nat := chooseAddress 0x10 0x08 f

def getINTCAPBAddress (f : Flags) : Nat := chooseAddress 0x11 0x18 f

def getGPIOAAddress (f : Flags) : Nat := chooseAddress 0x12 0x09 f

def getGPIOBAddress (f : Flags) : Nat := chooseAddress 0x13 0x19 f

def getOLATAAddress (f : Flags) : Nat := chooseAddress 0x14 0x0A f

def getOLATBAddress (f : Flags) : Nat := chooseAddress 0x15 0x1A f

/-- getIOCon(): read(getIOConAddress()). -/
def getIOCon (cfg : Config) (s : Sys) : Nat × Sys :=
  read cfg s (getIOConAddress s.flags)

/-- setIOCon(value): write(getIOConAddress(), value), then re-derive the three
mirrored flags from the bits just written. -/
def setIOCon (cfg : Config) (s : Sys) (value : Nat) : Sys :=
  let s1 := write cfg s (getIOConAddress s.flags) value
  { s1 with flags :=
    { _registersAreSequential := value &&& 0b10000000 == 0,
      _polarityIsActiveLow := value &&& 0b00000010 == 0,
      _hardwareAddressPinsEnabled := value &&& 0b00001000 != 0 } }

/-- makeRegistersSequential(): if banked, setIOCon(getIOCon() & 0b01111110). -/
def makeRegistersSequential (cfg : Config) (s : Sys) : Sys :=
  if !s.flags._registersAreSequential then
    let r := getIOCon cfg s
    setIOCon cfg r.2 (r.1 &&& 0b01111110)
  else s

/-- makeRegistersBanked(): if sequential, setIOCon(getIOCon() | 0b10000000). -/
def makeRegistersBanked (cfg : Config) (s : Sys) : Sys :=
  if s.flags._registersAreSequential then
    let r := getIOCon cfg s
    setIOCon cfg r.2 (r.1 ||| 0b10000000)
  else s

/-- makeInterruptOutputLinesActiveLow(): if active high,
setIOCon(getIOCon() & 0b01111100). -/
def makeInterruptOutputLinesActiveLow (cfg : Config) (s : Sys) : Sys :=
  if !s.flags._polarityIsActiveLow then
    let r := getIOCon cfg s
    setIOCon cfg r.2 (r.1 &&& 0b01111100)
  else s

/-- makeInterruptOutputLinesActiveHigh(): if active low,
setIOCon(getIOCon() | 0b00000010). -/
def makeInterruptOutputLinesActiveHigh (cfg : Config) (s : Sys) : Sys :=
  if s.flags._polarityIsActiveLow then
    let r := getIOCon cfg s
    setIOCon cfg r.2 (r.1 ||| 0b00000010)
  else s

/-- enableHardwareAddressPins(): if disabled, setIOCon(getIOCon() | 0b00001000). -/
def enableHardwareAddressPins (cfg : Config) (s : Sys) : Sys :=
  if !s.flags._hardwareAddressPinsEnabled then
    let r := getIOCon cfg s
    setIOCon cfg r.2 (r.1 ||| 0b00001000)
  else s

/-- disableHardwareAddressPins(): if enabled, setIOCon(getIOCon() & 0b11110110). -/
def disableHardwareAddressPins (cfg : Config) (s : Sys) : Sys :=
  if s.flags._hardwareAddressPinsEnabled then
    let r := getIOCon cfg s
    setIOCon cfg r.2 (r.1 &&& 0b11110110)
  else s

/-- interruptPinsAreMirrored(): unconditional setIOCon(getIOCon() | 0b01000000). -/
def interruptPinsAreMirrored (cfg : Config) (s : Sys) : Sys :=
  let r := getIOCon cfg s
  setIOCon cfg r.2 (r.1 ||| 0b01000000)

/-- interruptPinsAreIndependent(): unconditional setIOCon(getIOCon() & 0b10111110). -/
def interruptPinsAreIndependent (cfg : Config) (s : Sys) : Sys :=
  let r := getIOCon cfg s
  setIOCon cfg r.2 (r.1 &&& 0b10111110)

/-- reset(): if a reset pin exists, hold it LOW (HoldPinLow) around
delayMicroseconds(2); otherwise just delayMicroseconds(2). -/
def reset (cfg : Config) (s : Sys) : Sys :=
  if cfg.hasResetPin then
    { s with trace := s.trace ++
        [Event.pinWrite cfg.resetPin.toNat false,
         Event.delayMicroseconds 2,
         Event.pinWrite cfg.resetPin.toNat true] }
  else
    { s with trace := s.trace ++ [Event.delayMicroseconds 2] }

/-- The MCP23S17() constructor: pinMode(ChipEnablePin, OUTPUT);
digitalWrite(ChipEnablePin, HIGH); and, when a reset pin exists,
pinMode(ResetPin, OUTPUT); digitalWrite(ResetPin, HIGH).  The mirrored
flags take their member-initializer values true / true / false. -/
def mkMCP23S17 (cfg : Config) (dev : Nat → Nat) : Sys :=
  { flags :=
      { _registersAreSequential := true,
        _polarityIsActiveLow := true,
        _hardwareAddressPinsEnabled := false },
    dev := dev,
    trace :=
      [Event.pinModeOut cfg.chipEnable, Event.pinWrite cfg.chipEnable true] ++
      (if cfg.hasResetPin then
        [Event.pinModeOut cfg.resetPin.toNat, Event.pinWrite cfg.resetPin.toNat true]
       else []),
    ops := [] }

/-- Sum of all delayMicroseconds amounts in a trace. -/
def totalDelay : List Event → Nat
  | [] => 0
  | Event.delayMicroseconds n :: rest => n + totalDelay rest
  | _ :: rest => totalDelay rest

/-- Level of pin p after replaying a trace from initial level init
(true = HIGH, false = LOW). -/
def pinLevel (p : Nat) (init : Bool) : List Event → Bool
  | [] => init
  | Event.pinWrite q lvl :: rest => pinLevel p (if q = p then lvl else init) rest
  | _ :: rest => pinLevel p init rest

/-- The compile-time pin parameters of the HC138 class. -/
structure HC138Config where
  selA : Nat
  selB : Nat
  selC : Nat
  enablePin : Nat

/-- HC138::generateSignal<a, b, c>(): TemporaryDisabler holds the enable pin
LOW around the three select-pin writes (restored HIGH at scope exit). -/
def generateSignal (c : HC138Config) (a b cc : Bool) : List Event :=
  [Event.pinWrite c.enablePin false,
   Event.pinWrite c.selA a,
   Event.pinWrite c.selB b,
   Event.pinWrite c.selC cc,
   Event.pinWrite c.enablePin true]

/-- HC138::enableLine(signal): eight explicit cases for signals 0 through 7;
any other signal recurses on signal & 0x7. -/
def enableLine (c : HC138Config) (signal : Nat) : List Event :=
  match signal with
  | 0 => generateSignal c false false false
  | 1 => generateSignal c true false false
  | 2 => generateSignal c false true false
  | 3 => generateSignal c true true false
  | 4 => generateSignal c false false true
  | 5 => generateSignal c true false true
  | 6 => generateSignal c false true true
  | 7 => generateSignal c true true true
  | n + 8 => enableLine c ((n + 8) &&& 0x7)
  decreasing_by
    have h : (n + 8) &&& 0x7 ≤ 0x7 := Nat.and_le_right
    omega

/-- Claim C1: for every state of the mirrored flags, each register-address
getter (getIODIRAAddress through getOLATBAddress) returns the sequential-mode
address when the mirrored banking mode is sequential and the banked-mode
address when it is banked, with the address pairs matching the table in spec
section 6 (Config 0x0A/0x05, GPIO A/B 0x12,0x13 / 0x09,0x19, and so on). -/
theorem C1_address_resolution (f : Flags) :
    getIODIRAAddress f = 0x00 ∧
    getIODIRBAddress f = (if f.registersAreSequential then 0x01 else 0x10) ∧
    getIOPOLAAddress f = (if f.registersAreSequential then 0x02 else 0x01) ∧
    getIOPOLBAddress f = (if f.registersAreSequential then 0x03 else 0x11) ∧
    getGPINTENAAddress f = (if f.registersAreSequential then 0x04 else 0x02) ∧
    getGPINTENBAddress f = (if f.registersAreSequential then 0x05 else 0x12) ∧
    getDEFVALAAddress f = (if f.registersAreSequential then 0x06 else 0x03) ∧
    getDEFVALBAddress f = (if f.registersAreSequential then 0x07 else 0x13) ∧
    getIntConAAddress f = (if f.registersAreSequential then 0x08 else 0x04) ∧
    getIntConBAddress f = (if f.registersAreSequential then 0x09 else 0x14) ∧
    getIOConAddress f = (if f.registersAreSequential then 0x0A else 0x05) ∧
    getGPPUAAddress f = (if f.registersAreSequential then 0x0C else 0x06) ∧
    getGPPUBAddress f = (if f.registersAreSequential then 0x0D else 0x16) ∧
    getINTFAAddress f = (if f.registersAreSequential then 0x0E else 0x07) ∧
    getINTFBAddress f = (if f.registersAreSequential then 0x0F else 0x17) ∧
    getINTCAPAAddress f = (if f.registersAreSequential then 0x10 else 0x08) ∧
    getINTCAPBAddress f = (if f.registersAreSequential then 0x11 else 0x18) ∧
    getGPIOAAddress f = (if f.registersAreSequential then 0x12 else 0x09) ∧
    getGPIOBAddress f = (if f.registersAreSequential then 0x13 else 0x19) ∧
    getOLATAAddress f = (if f.registersAreSequential then 0x14 else 0x0A) ∧
    getOLATBAddress f = (if f.registersAreSequential then 0x15 else 0x1A) := by
  rcases f with ⟨rs, pol, haen⟩
  cases rs <;> cases pol <;> cases haen <;> decide

/-- Claim C9: immediately after construction, the mirrored flags hold the
power-on defaults (sequential registers, active-low interrupts, hardware
addressing disabled, hence effective SPI address 0), and the chip-enable pin
has been driven to its idle high level, from any prior level. -/
theorem C9_constructor_defaults (cfg : Config) (dev : Nat → Nat) (b : Bool) :
    (mkMCP23S17 cfg dev).flags.registersAreSequential = true ∧
    (mkMCP23S17 cfg dev).flags.interruptPinsAreActiveLow = true ∧
    (mkMCP23S17 cfg dev).flags.hardwareAddressEnabled = false ∧
    getSPIAddress cfg (mkMCP23S17 cfg dev).flags = 0 ∧
    pinLevel cfg.chipEnable b (mkMCP23S17 cfg dev).trace = true := by
  refine ⟨rfl, rfl, rfl, rfl, ?_⟩
  by_cases h : cfg.hasResetPin <;>
    simp [mkMCP23S17, pinLevel, h]

/-- For a 3-bit effective address, or-ing the shifted address into the fixed
command nibble is plain addition (the bit fields are disjoint). -/
theorem opcode_or_eq_add (a : Nat) (h : a < 8) :
    64 ||| (a <<< 1) = 64 + 2 * a ∧ (64 ||| (a <<< 1)) ||| 1 = 64 + 2 * a + 1 := by
  interval_cases a <;> decide

/-- Claim C4: the read opcode is always the write opcode with bit 0 set; the
opcode has the form 0b0100 AAA R, where AAA is the effective SPI address (the
configured bus address when hardware addressing is enabled, 0 otherwise); in
particular with hardware addressing disabled the opcodes are 0x41 (read) and
0x40 (write) regardless of the configured bus address. -/
theorem C4_opcode_form (cfg : Config) (f : Flags) (h : cfg.address < 8) :
    generateOpcodeRead cfg f = generateOpcodeWrite cfg f ||| 1 ∧
    generateOpcodeWrite cfg f = 0x40 + 2 * getSPIAddress cfg f ∧
    generateOpcodeRead cfg f = 0x40 + 2 * getSPIAddress cfg f + 1 ∧
    (f.hardwareAddressEnabled = false →
      generateOpcodeRead cfg f = 0x41 ∧ generateOpcodeWrite cfg f = 0x40) ∧
    (f.hardwareAddressEnabled = true →
      generateOpcodeRead cfg f = 0x40 + 2 * cfg.address + 1 ∧
      generateOpcodeWrite cfg f = 0x40 + 2 * cfg.address) := by
  have ha : getSPIAddress cfg f < 8 := by
    unfold getSPIAddress; split <;> omega
  refine ⟨rfl, (opcode_or_eq_add _ ha).1, (opcode_or_eq_add _ ha).2, ?_, ?_⟩
  · intro hf
    simp only [Flags.hardwareAddressEnabled] at hf
    have e : getSPIAddress cfg f = 0 := by simp [getSPIAddress, hf]
    unfold generateOpcodeRead generateOpcodeWrite
    rw [e]
    exact ⟨by decide, by decide⟩
  · intro ht
    simp only [Flags.hardwareAddressEnabled] at ht
    have e : getSPIAddress cfg f = cfg.address := by simp [getSPIAddress, ht]
    unfold generateOpcodeRead generateOpcodeWrite
    rw [e]
    exact ⟨(opcode_or_eq_add _ h).2, (opcode_or_eq_add _ h).1⟩

/-- Witness for C4 at bus address 3 with hardware addressing enabled. -/
theorem C4_opcode_form_witness :
    generateOpcodeRead ⟨10, 3, -1⟩ ⟨true, true, true⟩ = 0x47 ∧
    generateOpcodeWrite ⟨10, 3, -1⟩ ⟨true, true, true⟩ = 0x46 := by
  have h := C4_opcode_form ⟨10, 3, -1⟩ ⟨true, true, true⟩ (by decide)
  exact ⟨by rw [(h.2.2.2.2 rfl).1]; decide, by rw [(h.2.2.2.2 rfl).2]; decide⟩

/-- Claim C3: after setIOCon(v), independent of the prior state, the mirrored
flags reflect exactly bits 7, 1 and 3 of v: registers are sequential iff bit 7
is clear, interrupts are active low iff bit 1 is clear, and hardware
addressing is enabled iff bit 3 is set. -/
theorem C3_setIOCon_mirrors (cfg : Config) (s : Sys) (v : Nat) :
    ((setIOCon cfg s v).flags.registersAreSequential = true ↔ v.testBit 7 = false) ∧
    ((setIOCon cfg s v).flags.interruptPinsAreActiveLow = true ↔ v.testBit 1 = false) ∧
    ((setIOCon cfg s v).flags.hardwareAddressEnabled = true ↔ v.testBit 3 = true) := by
  have h7 := Nat.and_two_pow v 7
  have h1 := Nat.and_two_pow v 1
  have h3 := Nat.and_two_pow v 3
  norm_num at h7 h1 h3
  simp only [setIOCon, Flags.registersAreSequential, Flags.interruptPinsAreActiveLow,
    Flags.hardwareAddressEnabled]
  refine ⟨?_, ?_, ?_⟩
  · rw [show (0b10000000 : Nat) = 128 from rfl, h7]
    cases hb : v.testBit 7 <;> simp
  · rw [show (0b00000010 : Nat) = 2 from rfl, h1]
    cases hb : v.testBit 1 <;> simp
  · rw [show (0b00001000 : Nat) = 8 from rfl, h3]
    cases hb : v.testBit 3 <;> simp

/-- Claim C5: each guarded mode toggle (banking, interrupt polarity, hardware
address enable) is a complete no-op, performing no bus transfer at all, when
the requested mode is already active according to the mirrored flag; the two
interrupt-mirroring toggles instead perform a configuration read-modify-write
on every call, unconditionally. -/
theorem C5_toggle_guards (cfg : Config) (s : Sys) :
    (s.flags.registersAreSequential = true → makeRegistersSequential cfg s = s) ∧
    (s.flags.registersAreSequential = false → makeRegistersBanked cfg s = s) ∧
    (s.flags.interruptPinsAreActiveLow = true → makeInterruptOutputLinesActiveLow cfg s = s) ∧
    (s.flags.interruptPinsAreActiveLow = false → makeInterruptOutputLinesActiveHigh cfg s = s) ∧
    (s.flags.hardwareAddressEnabled = true → enableHardwareAddressPins cfg s = s) ∧
    (s.flags.hardwareAddressEnabled = false → disableHardwareAddressPins cfg s = s) ∧
    (interruptPinsAreMirrored cfg s).ops =
      s.ops ++ [BusOp.readReg (getIOConAddress s.flags),
                BusOp.writeReg (getIOConAddress s.flags)
                  (s.dev (getIOConAddress s.flags) ||| 0b01000000)] ∧
    (interruptPinsAreIndependent cfg s).ops =
      s.ops ++ [BusOp.readReg (getIOConAddress s.flags),
                BusOp.writeReg (getIOConAddress s.flags)
                  (s.dev (getIOConAddress s.flags) &&& 0b10111110)] := by
  refine ⟨?_, ?_, ?_, ?_, ?_, ?_, ?_, ?_⟩
  · intro h; simp only [Flags.registersAreSequential] at h
    simp [makeRegistersSequential, h]
  · intro h; simp only [Flags.registersAreSequential] at h
    simp [makeRegistersBanked, h]
  · intro h; simp only [Flags.interruptPinsAreActiveLow] at h
    simp [makeInterruptOutputLinesActiveLow, h]
  · intro h; simp only [Flags.interruptPinsAreActiveLow] at h
    simp [makeInterruptOutputLinesActiveHigh, h]
  · intro h; simp only [Flags.hardwareAddressEnabled] at h
    simp [enableHardwareAddressPins, h]
  · intro h; simp only [Flags.hardwareAddressEnabled] at h
    simp [disableHardwareAddressPins, h]
  · simp [interruptPinsAreMirrored, setIOCon, getIOCon, read, write]
  · simp [interruptPinsAreIndependent, setIOCon, getIOCon, read, write]

/-- Input exercising the already-sequential guard: sequential mode. -/
def c5sysA : Sys := { flags := ⟨true, true, true⟩, dev := fun _ => 0, trace := [], ops := [] }

/-- Input exercising the opposite guards: banked, active high, disabled. -/
def c5sysB : Sys := { flags := ⟨false, false, false⟩, dev := fun _ => 0, trace := [], ops := [] }

/-- Witness for C5: the guards fire on concrete states in both directions. -/
theorem C5_toggle_guards_witness :
    makeRegistersSequential ⟨10, 0, -1⟩ c5sysA = c5sysA ∧
    makeInterruptOutputLinesActiveLow ⟨10, 0, -1⟩ c5sysA = c5sysA ∧
    enableHardwareAddressPins ⟨10, 0, -1⟩ c5sysA = c5sysA ∧
    makeRegistersBanked ⟨10, 0, -1⟩ c5sysB = c5sysB ∧
    makeInterruptOutputLinesActiveHigh ⟨10, 0, -1⟩ c5sysB = c5sysB ∧
    disableHardwareAddressPins ⟨10, 0, -1⟩ c5sysB = c5sysB := by
  have hA := C5_toggle_guards ⟨10, 0, -1⟩ c5sysA
  have hB := C5_toggle_guards ⟨10, 0, -1⟩ c5sysB
  exact ⟨hA.1 rfl, hA.2.2.1 rfl, hA.2.2.2.2.1 rfl,
         hB.2.1 rfl, hB.2.2.2.1 rfl, hB.2.2.2.2.2.1 rfl⟩

/-- Input for the C2 counterexample: banked mode, config byte 0xFF. -/
def c2sys : Sys :=
  { flags := ⟨false, true, false⟩, dev := fun _ => 0xFF, trace := [], ops := [] }

/-- Claim C2 counterexample: in banked mode (config register at 0x05) with
current configuration byte 0xFF, makeRegistersSequential writes 0x7E: bit 0
of the prior byte is cleared along with bit 7, so the value is not the
current byte with only bit 7 cleared (that value would be 0x7F). -/
theorem C2_counterexample :
    (makeRegistersSequential ⟨10, 0, -1⟩ c2sys).ops =
      [BusOp.readReg 0x05, BusOp.writeReg 0x05 0x7E] ∧
    Nat.testBit 0xFF 0 = true ∧ Nat.testBit 0x7E 0 = false ∧ (0x7E : Nat) ≠ 0x7F := by
  refine ⟨by decide, by decide, by decide, by decide⟩

/-- Claim C2 (amended): calling makeRegistersSequential when the mirrored
state is already sequential issues zero bus operations; calling it when
banked issues exactly one configuration read followed by one configuration
write whose value is the current configuration byte with bit 7 and bit 0
both cleared (mask 0b01111110) and bits 1 through 6 preserved. -/
theorem C2_setSequential_rmw (cfg : Config) (s : Sys) :
    (s.flags.registersAreSequential = true → makeRegistersSequential cfg s = s) ∧
    (s.flags.registersAreSequential = false →
      (makeRegistersSequential cfg s).ops =
        s.ops ++ [BusOp.readReg (getIOConAddress s.flags),
                  BusOp.writeReg (getIOConAddress s.flags)
                    (s.dev (getIOConAddress s.flags) &&& 0b01111110)] ∧
      (s.dev (getIOConAddress s.flags) &&& 0b01111110).testBit 7 = false ∧
      (s.dev (getIOConAddress s.flags) &&& 0b01111110).testBit 0 = false ∧
      ∀ i, 1 ≤ i → i ≤ 6 →
        (s.dev (getIOConAddress s.flags) &&& 0b01111110).testBit i =
          (s.dev (getIOConAddress s.flags)).testBit i) := by
  constructor
  · intro h; simp only [Flags.registersAreSequential] at h
    simp [makeRegistersSequential, h]
  · intro h; simp only [Flags.registersAreSequential] at h
    refine ⟨?_, ?_, ?_, ?_⟩
    · simp [makeRegistersSequential, h, getIOCon, setIOCon, read, write]
    · simp [Nat.testBit_and, (by decide : Nat.testBit 126 7 = false)]
    · simp [Nat.testBit_and, (by decide : Nat.testBit 126 0 = false)]
    · intro i h1 h6
      interval_cases i <;>
        simp [Nat.testBit_and,
          (by decide : Nat.testBit 126 1 = true), (by decide : Nat.testBit 126 2 = true),
          (by decide : Nat.testBit 126 3 = true), (by decide : Nat.testBit 126 4 = true),
          (by decide : Nat.testBit 126 5 = true), (by decide : Nat.testBit 126 6 = true)]

/-- Input for the C2 witness: already-sequential state. -/
def c2sysSeq : Sys := { flags := ⟨true, true, false⟩, dev := fun _ => 0, trace := [], ops := [] }

/-- Witness for C2 (amended): both guard directions on concrete states. -/
theorem C2_setSequential_rmw_witness :
    makeRegistersSequential ⟨10, 0, -1⟩ c2sysSeq = c2sysSeq ∧
    (makeRegistersSequential ⟨10, 0, -1⟩ c2sys).ops =
      [BusOp.readReg 0x05, BusOp.writeReg 0x05 0x7E] := by
  constructor
  · exact (C2_setSequential_rmw ⟨10, 0, -1⟩ c2sysSeq).1 rfl
  · have h := ((C2_setSequential_rmw ⟨10, 0, -1⟩ c2sys).2 rfl).1
    rw [h]; decide

/-- Bit i of 255 is set exactly for i below 8. -/
theorem testBit_255 (i : Nat) : Nat.testBit 255 i = decide (i < 8) := by
  rcases Nat.lt_or_ge i 8 with h | h
  · interval_cases i <;> decide
  · have h2 : (255 : Nat) < 2 ^ i :=
      lt_of_lt_of_le (by norm_num) (Nat.pow_le_pow_right (by norm_num) h)
    simp [Nat.testBit_lt_two_pow h2, show ¬ i < 8 by omega]

/-- Bit i of 65280 (0xFF00) is set exactly for i between 8 and 15. -/
theorem testBit_65280 (i : Nat) :
    Nat.testBit 65280 i = (decide (8 ≤ i) && decide (i < 16)) := by
  rcases Nat.lt_or_ge i 16 with h | h
  · interval_cases i <;> decide
  · have h2 : (65280 : Nat) < 2 ^ i :=
      lt_of_lt_of_le (by norm_num) (Nat.pow_le_pow_right (by norm_num) h)
    simp [Nat.testBit_lt_two_pow h2, show ¬ i < 16 by omega]

/-- Recombining the masked low byte with the shifted-down-then-up high byte
of a 16-bit value gives the value back. -/
theorem low_or_high_shift (v : Nat) (hv : v < 65536) :
    (v &&& 0xFF) ||| (((v &&& 0xFF00) >>> 8) <<< 8) = v := by
  apply Nat.eq_of_testBit_eq
  intro i
  simp only [Nat.testBit_or, Nat.testBit_and, Nat.testBit_shiftLeft, Nat.testBit_shiftRight,
    testBit_255, testBit_65280]
  rcases Nat.lt_or_ge i 8 with h8 | h8
  · simp [h8, Nat.not_le.mpr h8]
  · have e : 8 + (i - 8) = i := by omega
    rw [e]
    rcases Nat.lt_or_ge i 16 with h16 | h16
    · simp [h8, h16, Nat.not_lt.mpr h8]
    · have hle : (65536 : Nat) ≤ 2 ^ i :=
        le_trans (by norm_num : (65536 : Nat) ≤ 2 ^ 16) (Nat.pow_le_pow_right (by norm_num) h16)
      have hz : v.testBit i = false := Nat.testBit_lt_two_pow (lt_of_lt_of_le hv hle)
      simp [hz]

/-- Input for the C6 counterexample and witness: all-zero backing store. -/
def c6sys : Sys := { flags := ⟨true, true, false⟩, dev := fun _ => 0, trace := [], ops := [] }

/-- Claim C6 counterexample: with addrA = addrB = 0, write16 of 0x1234
followed by read16 over the backing store returns 0x1212 (the high byte in
both positions), not the value written, so the round-trip claim fails for
equal address pairs. -/
theorem C6_counterexample :
    (read16 ⟨10, 0, -1⟩ (write16 ⟨10, 0, -1⟩ c6sys 0 0 0x1234) 0 0).1 = 0x1212 ∧
    (0x1212 : Nat) ≠ 0x1234 := ⟨by decide, by decide⟩

/-- Claim C6 (amended): write16 issues the low byte of v to addrA and the
high byte to addrB, read16 combines the bytes at addrA (low) and addrB (high)
little-endian, and, provided addrA and addrB are distinct, write16 followed
by read16 on the same address pair over a byte-addressable backing store
returns the 16-bit value written. -/
theorem C6_word_roundtrip (cfg : Config) (s : Sys) (a b v : Nat)
    (hab : a ≠ b) (hv : v < 65536) :
    (write16 cfg s a b v).ops =
      s.ops ++ [BusOp.writeReg a (v &&& 0xFF), BusOp.writeReg b ((v &&& 0xFF00) >>> 8)] ∧
    (read16 cfg s a b).1 = s.dev a ||| (s.dev b <<< 8) ∧
    (write16 cfg s a b v).dev a = v &&& 0xFF ∧
    (write16 cfg s a b v).dev b = (v &&& 0xFF00) >>> 8 ∧
    (read16 cfg (write16 cfg s a b v) a b).1 = v := by
  refine ⟨?_, rfl, ?_, ?_, ?_⟩
  · simp [write16, write]
  · simp [write16, write, hab]
  · simp [write16, write]
  · have h1 : (write16 cfg s a b v).dev a = v &&& 0xFF := by simp [write16, write, hab]
    have h2 : (write16 cfg s a b v).dev b = (v &&& 0xFF00) >>> 8 := by simp [write16, write]
    show (write16 cfg s a b v).dev a ||| ((write16 cfg s a b v).dev b <<< 8) = v
    rw [h1, h2]
    exact low_or_high_shift v hv

/-- Witness for C6 (amended) at the sequential-mode GPIO address pair. -/
theorem C6_word_roundtrip_witness :
    (read16 ⟨10, 0, -1⟩ (write16 ⟨10, 0, -1⟩ c6sys 0x12 0x13 0x1234) 0x12 0x13).1 = 0x1234 :=
  (C6_word_roundtrip ⟨10, 0, -1⟩ c6sys 0x12 0x13 0x1234 (by decide) (by decide)).2.2.2.2

/-- Claim C7: read and write each drive chip-select low on entry and restore
it high on exit, the whole transfer (opcode byte, register-address byte, data
or dummy byte) happening inside the single chip-select hold; replaying the
events of one transfer from any prior level leaves the line high, and
replaying all but the final release leaves it low, so the line is low only
strictly between the start and the end of each transfer. -/
theorem C7_chip_select_scoped (cfg : Config) (s : Sys) (regAddr v : Nat) (b : Bool) :
    (read cfg s regAddr).2.trace =
      s.trace ++ [Event.pinWrite cfg.chipEnable false,
                  Event.spiTransfer (generateOpcodeRead cfg s.flags),
                  Event.spiTransfer regAddr,
                  Event.spiTransfer 0x00,
                  Event.pinWrite cfg.chipEnable true] ∧
    (write cfg s regAddr v).trace =
      s.trace ++ [Event.pinWrite cfg.chipEnable false,
                  Event.spiTransfer (generateOpcodeWrite cfg s.flags),
                  Event.spiTransfer regAddr,
                  Event.spiTransfer v,
                  Event.pinWrite cfg.chipEnable true] ∧
    pinLevel cfg.chipEnable b
      [Event.pinWrite cfg.chipEnable false,
       Event.spiTransfer (generateOpcodeRead cfg s.flags),
       Event.spiTransfer regAddr,
       Event.spiTransfer 0x00,
       Event.pinWrite cfg.chipEnable true] = true ∧
    pinLevel cfg.chipEnable b
      (List.take 4
        [Event.pinWrite cfg.chipEnable false,
         Event.spiTransfer (generateOpcodeRead cfg s.flags),
         Event.spiTransfer regAddr,
         Event.spiTransfer 0x00,
         Event.pinWrite cfg.chipEnable true]) = false := by
  refine ⟨rfl, rfl, ?_, ?_⟩ <;> simp [pinLevel]

/-- totalDelay distributes over trace concatenation. -/
theorem totalDelay_append (xs ys : List Event) :
    totalDelay (xs ++ ys) = totalDelay xs + totalDelay ys := by
  induction xs with
  | nil => simp [totalDelay]
  | cons e rest ih =>
    cases e
    all_goals simp [totalDelay, ih]
    all_goals omega

/-- Claim C8: reset always adds exactly 2 microseconds of delay, whether or
not a reset line is configured; with a reset line it is held low for the
duration of that delay and released high afterwards, and without one the
same delay still occurs, so the timing is identical in both configurations. -/
theorem C8_reset_timing (cfg : Config) (s : Sys) :
    totalDelay (reset cfg s).trace = totalDelay s.trace + 2 ∧
    (cfg.hasResetPin = true →
      (reset cfg s).trace =
        s.trace ++ [Event.pinWrite cfg.resetPin.toNat false,
                    Event.delayMicroseconds 2,
                    Event.pinWrite cfg.resetPin.toNat true]) ∧
    (cfg.hasResetPin = false →
      (reset cfg s).trace = s.trace ++ [Event.delayMicroseconds 2]) := by
  refine ⟨?_, ?_, ?_⟩
  · by_cases h : cfg.hasResetPin <;>
      simp [reset, h, totalDelay_append, totalDelay]
  · intro h; simp [reset, h]
  · intro h; simp [reset, h]

/-- Input for the C8 witness. -/
def c8sys : Sys := { flags := ⟨true, true, false⟩, dev := fun _ => 0, trace := [], ops := [] }

/-- Witness for C8 with reset pin 5 present and with no reset pin. -/
theorem C8_reset_timing_witness :
    (reset ⟨10, 0, 5⟩ c8sys).trace =
      [Event.pinWrite 5 false, Event.delayMicroseconds 2, Event.pinWrite 5 true] ∧
    (reset ⟨10, 0, -1⟩ c8sys).trace = [Event.delayMicroseconds 2] := by
  constructor
  · have h := (C8_reset_timing ⟨10, 0, 5⟩ c8sys).2.1 (by decide)
    rw [h]; decide
  · have h := (C8_reset_timing ⟨10, 0, -1⟩ c8sys).2.2 (by decide)
    rw [h]; decide

/-- For signals below 8, masking with 0x7 is the identity. -/
theorem and_seven_small (n : Nat) (h : n < 8) : n &&& 0x7 = n := by
  interval_cases n <;> decide

/-- enableLine reduces any signal to its low three bits. -/
theorem enableLine_and_seven (c : HC138Config) (signal : Nat) :
    enableLine c signal = enableLine c (signal &&& 0x7) := by
  rcases Nat.lt_or_ge signal 8 with h | h
  · rw [and_seven_small signal h]
  · obtain ⟨n, rfl⟩ : ∃ n, signal = n + 8 := ⟨signal - 8, by omega⟩
    simp only [enableLine]

/-- Claim C10: for every signal, HC138 enableLine produces exactly the pin
write sequence of enableLine applied to signal & 0x7 (out-of-range line
numbers reduce modulo 8 rather than being rejected), and every call holds
the enable pin low for the duration of the three select-pin writes,
releasing it high afterwards. -/
theorem C10_enableLine_mod8 (c : HC138Config) (signal : Nat) :
    enableLine c signal = enableLine c (signal &&& 0x7) ∧
    ∃ a b d, enableLine c signal =
      [Event.pinWrite c.enablePin false,
       Event.pinWrite c.selA a,
       Event.pinWrite c.selB b,
       Event.pinWrite c.selC d,
       Event.pinWrite c.enablePin true] := by
  refine ⟨enableLine_and_seven c signal, ?_⟩
  rw [enableLine_and_seven c signal]
  have hm : signal &&& 0x7 < 8 :=
    lt_of_le_of_lt (@Nat.and_le_right signal 0x7) (by norm_num)
  obtain ⟨m, hlt, he⟩ : ∃ m, m < 8 ∧ signal &&& 0x7 = m := ⟨_, hm, rfl⟩
  rw [he]
  interval_cases m
  · exact ⟨false, false, false, by simp [enableLine, generateSignal]⟩
  · exact ⟨true, false, false, by simp [enableLine, generateSignal]⟩
  · exact ⟨false, true, false, by simp [enableLine, generateSignal]⟩
  · exact ⟨true, true, false, by simp [enableLine, generateSignal]⟩
  · exact ⟨false, false, true, by simp [enableLine, generateSignal]⟩
  · exact ⟨true, false, true, by simp [enableLine, generateSignal]⟩
  · exact ⟨false, true, true, by simp [enableLine, generateSignal]⟩
  · exact ⟨true, true, true, by simp [enableLine, generateSignal]⟩

end Bonuspin
